import Mathlib

/-!
Shallow embedding of the BengoLink voice/text translation client
(`src/App.tsx`, `src/types.ts`): the `useLiveTranslator` hook's recorder
state machine, transcript list, retry/backoff translation client, and
audio-resource lifecycle. Timestamps (`Date.now()`) are modelled as `Nat`;
transcript ids, produced by `Date.now().toString()`, are modelled by the
underlying `Nat` (`Nat.toString`-injectivity makes the two equivalent).
The remote `ai.models.generateContent` call is modelled as an oracle
`Nat → RemoteOutcome` giving the outcome of each attempt, and elapsed
backoff waits are recorded as a list of delays in milliseconds.
-/

/-- `types.ts`: `TranscriptionItem { id, text, isUser, timestamp }`. -/
structure TranscriptionItem where
  id : Nat
  text : String
  isUser : Bool
  timestamp : Nat
  deriving Repr, DecidableEq

/-- `types.ts`: `enum RecorderState { IDLE, RECORDING, PROCESSING, ERROR }`. -/
inductive RecorderState where
  | IDLE
  | RECORDING
  | PROCESSING
  | ERROR
  deriving Repr, DecidableEq

/-- A microphone `MediaStream`, reduced to its count of live tracks. -/
structure MicStream where
  tracks : Nat
  deriving Repr, DecidableEq

/-- The mutable state owned by `useLiveTranslator`: the two `useState`
cells (`recorderState`, `volume`, `transcriptions`) and the refs that hold
the audio resources (`streamRef`, `audioContextRef` reduced to an
open/closed flag, `mediaRecorderRef` reduced to an active/inactive flag). -/
structure TranslatorState where
  recorderState : RecorderState
  volume : Nat
  transcriptions : List TranscriptionItem
  streamRef : Option MicStream
  audioContextOpen : Bool
  recorderActive : Bool
  deriving Repr, DecidableEq

/-- Initial hook state: `IDLE`, volume 0, empty transcript, no resources. -/
def initialState : TranslatorState :=
  { recorderState := .IDLE
    volume := 0
    transcriptions := []
    streamRef := none
    audioContextOpen := false
    recorderActive := false }

/-- Number of live microphone tracks currently held by the hook. -/
def activeTracks (s : TranslatorState) : Nat :=
  match s.streamRef with
  | none => 0
  | some m => m.tracks

/-- Outcome of one remote `generateContent` attempt: success carrying the
optional `response.text`, a 429/RESOURCE_EXHAUSTED rate-limit failure, or
any other failure. -/
inductive RemoteOutcome where
  | success : Option String → RemoteOutcome
  | rateLimited
  | otherError
  deriving Repr, DecidableEq

/-- Failure classification made by the `isQuota` checks in both catch
blocks (`e.message?.includes('429') || e.status === 429 ||
e.toString().includes('RESOURCE_EXHAUSTED')`). -/
inductive FailKind where
  | rateLimited
  | other
  deriving Repr, DecidableEq

/-- Result of running the retry `while` loop: the final outcome (the moral
`response?.text` on break, or the thrown error), how many remote attempts
were made, and the backoff delays awaited in order. -/
structure RetryResult where
  outcome : Except FailKind (Option String)
  attempts : Nat
  delays : List Nat
  deriving Repr

/-- `const maxRetries = 3` in both `translateAudio` and `translateText`. -/
def maxRetries : Nat := 3

/-- The retry `while (attempt < maxRetries)` loop shared verbatim by
`translateAudio` (App.tsx 410-442) and `translateText` (App.tsx 493-514).
`oracle n` is the outcome of the remote call made with `attempt = n`.
On success the loop breaks; on a rate-limit failure with
`attempt < maxRetries - 1` it waits `delayMs`, doubles `delayMs`,
increments `attempt` and continues; any other failure (or an exhausted
rate-limit failure) is thrown. The loop body runs at most `maxRetries`
times (each iteration breaks, throws, or increments `attempt`), so `fuel`
initialised to `maxRetries` makes the recursion total; the fuel-exhausted
and `attempt ≥ maxRetries` exits model falling out of the loop with
`response` still `undefined`. -/
def retryLoop (oracle : Nat → RemoteOutcome) :
    Nat → Nat → Nat → Nat → List Nat → RetryResult
  | 0, _, _, attempts, delays => ⟨.ok none, attempts, delays⟩
  | fuel + 1, attempt, delayMs, attempts, delays =>
    if attempt < maxRetries then
      match oracle attempt with
      | .success t => ⟨.ok t, attempts + 1, delays⟩
      | .rateLimited =>
        if attempt < maxRetries - 1 then
          retryLoop oracle fuel (attempt + 1) (delayMs * 2) (attempts + 1)
            (delays ++ [delayMs])
        else ⟨.error .rateLimited, attempts + 1, delays⟩
      | .otherError => ⟨.error .other, attempts + 1, delays⟩
    else ⟨.ok none, attempts, delays⟩

/-- One full run of the retry loop: `attempt = 0`, `delayMs = 1000`. -/
def translateAttemptLoop (oracle : Nat → RemoteOutcome) : RetryResult :=
  retryLoop oracle maxRetries 0 1000 0 []

/-- JavaScript `response?.text || fallback`: `undefined` and the empty
string are both falsy and select the fallback. -/
def orFallback : Option String → String → String
  | none, fb => fb
  | some t, fb => if t = "" then fb else t

/-- The user-facing error string chosen in both catch blocks
(App.tsx 450-456 and 522-528). -/
def errorMessageFor : FailKind → String
  | .rateLimited => "Service busy (Quota Exceeded). Please try again in a moment."
  | .other => "Error during translation."

/-- The text the placeholder is resolved to once the translate step
settles: on break, `response?.text || fallback`; on a thrown error, the
message chosen by the quota check. Shared by the audio path (fallback
"Could not translate audio.", App.tsx 444) and the text path (fallback
"Could not translate.", App.tsx 516). -/
def resolvedText (oracle : Nat → RemoteOutcome) (fallback : String) : String :=
  match (translateAttemptLoop oracle).outcome with
  | .ok t => orFallback t fallback
  | .error k => errorMessageFor k

/-- `setTranscriptions(prev => prev.map(item => item.id === msgId ?
\x7b ...item, text \x7d : item))` — resolve the entry with the given id. -/
def resolveItem (msgId : Nat) (txt : String) (l : List TranscriptionItem) :
    List TranscriptionItem :=
  l.map fun item => if item.id = msgId then { item with text := txt } else item

/-- `translateAudio(base64Audio, mimeType)` (App.tsx 390-462). Returns the
new hook state and the number of remote attempts made. Guard: missing
`process.env.API_KEY` returns immediately. Otherwise a placeholder bot
message with `id = Date.now()` (`now`) is appended, the retry loop runs,
and on settlement the placeholder is resolved in place by id — to the
translation (with the "Could not translate audio." fallback) on success,
or to the catch block's error message on failure. -/
def translateAudio (apiKey : Bool) (oracle : Nat → RemoteOutcome) (now : Nat)
    (s : TranslatorState) : TranslatorState × Nat :=
  if apiKey = false then (s, 0)
  else
    let placeholder : TranscriptionItem :=
      { id := now, text := "Translating...", isUser := false, timestamp := now }
    let resolved :=
      resolveItem now (resolvedText oracle "Could not translate audio.")
        (s.transcriptions ++ [placeholder])
    ({ s with transcriptions := resolved }, (translateAttemptLoop oracle).attempts)

/-- JavaScript `String.prototype.trim()`: strip leading and trailing
whitespace. (Defined structurally over the character list so that it
evaluates by kernel reduction; `String.trim` from core is extensionally
the same but is defined by well-founded recursion.) -/
def jsTrim (s : String) : String :=
  String.mk (((s.data.dropWhile Char.isWhitespace).reverse.dropWhile Char.isWhitespace).reverse)

/-- The synchronous prefix of `translateText` (App.tsx 465-483): the guard
(`!process.env.API_KEY || !text.trim()`), then append the user message with
`id = Date.now()` (`now`) and the bot placeholder with `id = Date.now() + 1`.
Returns the updated state and the placeholder's id (`none` if rejected). -/
def translateTextIssue (apiKey : Bool) (text : String) (now : Nat)
    (s : TranslatorState) : TranslatorState × Option Nat :=
  if apiKey = false ∨ jsTrim text = "" then (s, none)
  else
    let userMsg : TranscriptionItem :=
      { id := now, text := text, isUser := true, timestamp := now }
    let placeholder : TranscriptionItem :=
      { id := now + 1, text := "Translating...", isUser := false, timestamp := now }
    ({ s with transcriptions := (s.transcriptions ++ [userMsg]) ++ [placeholder] },
     some (now + 1))

/-- The settlement suffix of `translateText` (App.tsx 485-533): run the
retry loop and resolve the placeholder in place by id — to the translation
(with the "Could not translate." fallback) on success, or to the catch
block's error message on failure. -/
def translateTextResolve (botMsgId : Nat) (oracle : Nat → RemoteOutcome)
    (s : TranslatorState) : TranslatorState × Nat :=
  let resolved :=
    resolveItem botMsgId (resolvedText oracle "Could not translate.") s.transcriptions
  ({ s with transcriptions := resolved }, (translateAttemptLoop oracle).attempts)

/-- `translateText(text)` run to completion with no interleaving: issue,
then settle. -/
def translateText (apiKey : Bool) (oracle : Nat → RemoteOutcome) (text : String)
    (now : Nat) (s : TranslatorState) : TranslatorState × Nat :=
  match translateTextIssue apiKey text now s with
  | (s1, some botMsgId) => translateTextResolve botMsgId oracle s1
  | (s1, none) => (s1, 0)

/-- `cleanupAudio()` (App.tsx 550-560): stop every track of the held
stream and drop it, close the audio context, reset the volume scalar. -/
def cleanupAudio (s : TranslatorState) : TranslatorState :=
  { s with streamRef := none, audioContextOpen := false, volume := 0 }

/-- `startRecording()` (App.tsx 304-359). `gum` is the result of
`getUserMedia` (`none` = permission/device failure), `ctxOk` whether the
`AudioContext`/analyser setup succeeds, `recOk` whether the
`MediaRecorder` construction and `start()` succeed. Mirrors the source's
assignment order inside the `try`: `streamRef.current = stream` happens
before the context setup, and the context is open before the recorder is
built, so a failure at either later step lands in the `catch` (which only
sets `ERROR`) with those refs still populated. -/
def startRecording (apiKey : Bool) (gum : Option MicStream)
    (ctxOk recOk : Bool) (s : TranslatorState) : TranslatorState :=
  if apiKey = false then { s with recorderState := .ERROR }
  else
    match gum with
    | none => { s with recorderState := .ERROR }
    | some stream =>
      let s1 := { s with streamRef := some stream }
      if ctxOk = false then { s1 with recorderState := .ERROR }
      else
        let s2 := { s1 with audioContextOpen := true }
        if recOk = false then { s2 with recorderState := .ERROR }
        else { s2 with recorderState := .RECORDING, recorderActive := true }

/-- `stopRecording()` (App.tsx 361-367): if the recorder exists and is not
inactive, stop it and set `PROCESSING`; otherwise do nothing. -/
def stopRecording (s : TranslatorState) : TranslatorState :=
  if s.recorderActive then
    { s with recorderState := .PROCESSING, recorderActive := false }
  else s

/-- `handleRecordingStop(mimeType)` (App.tsx 369-388), the recorder's
`onstop` handler. `blobOk` models the `try` body up to the base64
conversion (blob assembly / `blobToBase64` can throw, landing in the
`catch` which sets `ERROR`; `translateAudio` itself never throws — it
handles its own failures). The `finally` block then runs `cleanupAudio()`
and sets the state to `IDLE` unless it is already `ERROR`. -/
def handleRecordingStop (apiKey : Bool) (oracle : Nat → RemoteOutcome)
    (blobOk : Bool) (now : Nat) (s : TranslatorState) : TranslatorState :=
  let s1 := if blobOk then (translateAudio apiKey oracle now s).1
            else { s with recorderState := .ERROR }
  let s2 := cleanupAudio s1
  { s2 with recorderState :=
      if s2.recorderState = .ERROR then .ERROR else .IDLE }

/-- `toggleVoice()` (App.tsx 44-52): ignored while `PROCESSING`; stops
while `RECORDING`; otherwise starts a recording. -/
def toggleVoice (apiKey : Bool) (gum : Option MicStream) (ctxOk recOk : Bool)
    (s : TranslatorState) : TranslatorState :=
  if s.recorderState = .PROCESSING then s
  else if s.recorderState = .RECORDING then stopRecording s
  else startRecording apiKey gum ctxOk recOk s

/-- Two text submissions interleaved as the event loop allows: both
synchronous prefixes run (A at `tA`, then B at `tB`), then the two
settlements run in either order (`bFirst = true`: B's response arrives
before A's). If a guard rejects a submission the scenario degenerates to
whatever did run. -/
def twoTextSubmissions (bFirst : Bool) (tA tB : Nat) (textA textB : String)
    (oA oB : Nat → RemoteOutcome) (s0 : TranslatorState) : TranslatorState :=
  match translateTextIssue true textA tA s0 with
  | (s1, none) => s1
  | (s1, some botA) =>
    match translateTextIssue true textB tB s1 with
    | (s2, none) => s2
    | (s2, some botB) =>
      if bFirst then
        (translateTextResolve botA oA (translateTextResolve botB oB s2).1).1
      else
        (translateTextResolve botB oB (translateTextResolve botA oA s2).1).1

/-! ## Helper lemmas -/

/-- `translateAudio` only touches the transcript: the recorder state is
left unchanged. -/
theorem translateAudio_recorderState (apiKey : Bool) (oracle : Nat → RemoteOutcome)
    (now : Nat) (s : TranslatorState) :
    ((translateAudio apiKey oracle now s).1).recorderState = s.recorderState := by
  unfold translateAudio
  split <;> rfl

/-! ## Claim theorems -/

/-- C2: for a translate call whose remote attempts are rate-limited on
attempts 1 and 2 and succeed on attempt 3, the retry loop (shared by the
audio and text paths) makes exactly 3 attempts, waits exactly the two
backoff delays 1000ms then 2000ms, and returns the successful result. -/
theorem translate_rate_limited_twice_then_success (oracle : Nat → RemoteOutcome)
    (t : Option String) (h0 : oracle 0 = .rateLimited) (h1 : oracle 1 = .rateLimited)
    (h2 : oracle 2 = .success t) :
    translateAttemptLoop oracle = ⟨.ok t, 3, [1000, 2000]⟩ := by
  simp [translateAttemptLoop, retryLoop, maxRetries, h0, h1, h2]

/-- Oracle that is rate-limited on the first two attempts and succeeds on
the third. -/
def oracleThirdTry : Nat → RemoteOutcome :=
  fun n => if n < 2 then .rateLimited else .success (some "ok")

/-- C2 witness: the retry loop run against `oracleThirdTry`. -/
theorem translate_rate_limited_twice_then_success_witness :
    translateAttemptLoop oracleThirdTry = ⟨.ok (some "ok"), 3, [1000, 2000]⟩ :=
  translate_rate_limited_twice_then_success oracleThirdTry (some "ok") rfl rfl rfl

/-- C3: for a translate call whose first remote attempt fails with a
non-rate-limit error, the retry loop (shared by the audio and text paths)
makes exactly 1 attempt, performs no backoff delay, and propagates the
failure immediately (it is thrown into the catch block). -/
theorem translate_non_rate_limit_single_attempt (oracle : Nat → RemoteOutcome)
    (h0 : oracle 0 = .otherError) :
    translateAttemptLoop oracle = ⟨.error .other, 1, []⟩ := by
  simp [translateAttemptLoop, retryLoop, maxRetries, h0]

/-- Oracle that always fails with a non-rate-limit error. -/
def oracleHardFailure : Nat → RemoteOutcome := fun _ => .otherError

/-- C3 witness: the retry loop run against `oracleHardFailure`. -/
theorem translate_non_rate_limit_single_attempt_witness :
    translateAttemptLoop oracleHardFailure = ⟨.error .other, 1, []⟩ :=
  translate_non_rate_limit_single_attempt oracleHardFailure rfl

/-- C5: once the translate step of a recording cycle settles, the
`finally` block leaves the recorder state at `IDLE` unless the cycle
latched `ERROR` (a blob/base64 failure, or an already-latched `ERROR`),
in which case it stays `ERROR`; no completed cycle is left `PROCESSING`. -/
theorem handleRecordingStop_final_state (apiKey : Bool) (oracle : Nat → RemoteOutcome)
    (blobOk : Bool) (now : Nat) (s : TranslatorState) :
    (handleRecordingStop apiKey oracle blobOk now s).recorderState ≠ RecorderState.PROCESSING
    ∧ (handleRecordingStop apiKey oracle blobOk now s).recorderState =
        (if blobOk = false ∨ s.recorderState = RecorderState.ERROR then RecorderState.ERROR
         else RecorderState.IDLE) := by
  have hta := translateAudio_recorderState apiKey oracle now s
  by_cases hb : blobOk <;> by_cases he : s.recorderState = RecorderState.ERROR <;>
    simp [handleRecordingStop, cleanupAudio, hb, he, hta]

/-- C6: the mic toggle is ignored while `PROCESSING`: the hook state
(recorder state and transcript included) is unchanged, and in particular
no direct `PROCESSING → RECORDING` transition happens. -/
theorem toggleVoice_ignored_while_processing (apiKey : Bool) (gum : Option MicStream)
    (ctxOk recOk : Bool) (s : TranslatorState)
    (h : s.recorderState = RecorderState.PROCESSING) :
    toggleVoice apiKey gum ctxOk recOk s = s
    ∧ (toggleVoice apiKey gum ctxOk recOk s).recorderState ≠ RecorderState.RECORDING := by
  refine ⟨?_, ?_⟩ <;> simp [toggleVoice, h]

/-- C6 witness: toggling the mic in a concrete `PROCESSING` state. -/
theorem toggleVoice_ignored_while_processing_witness :
    toggleVoice true none true true
        { initialState with recorderState := RecorderState.PROCESSING } =
      { initialState with recorderState := RecorderState.PROCESSING }
    ∧ (toggleVoice true none true true
        { initialState with recorderState := RecorderState.PROCESSING }).recorderState ≠
      RecorderState.RECORDING :=
  toggleVoice_ignored_while_processing true none true true
    { initialState with recorderState := RecorderState.PROCESSING } rfl

/-- C9: with the translation-endpoint credential absent, `startRecording`
latches `ERROR` without touching the audio device, and both translate
entry points return immediately with zero remote attempts. -/
theorem missing_api_key_fails_fast (gum : Option MicStream) (ctxOk recOk : Bool)
    (oracle : Nat → RemoteOutcome) (text : String) (now : Nat) (s : TranslatorState) :
    startRecording false gum ctxOk recOk s = { s with recorderState := RecorderState.ERROR }
    ∧ translateAudio false oracle now s = (s, 0)
    ∧ translateText false oracle text now s = (s, 0) :=
  ⟨rfl, rfl, rfl⟩

/-- Settling with a successful response carrying no text resolves to the
fallback. -/
theorem resolvedText_of_ok_none (oracle : Nat → RemoteOutcome) (fb : String)
    (h : (translateAttemptLoop oracle).outcome = .ok none) :
    resolvedText oracle fb = fb := by
  unfold resolvedText
  rw [h]
  rfl

/-- Settling with a thrown failure resolves to the catch block's message. -/
theorem resolvedText_of_error (oracle : Nat → RemoteOutcome) (fb : String) (k : FailKind)
    (h : (translateAttemptLoop oracle).outcome = .error k) :
    resolvedText oracle fb = errorMessageFor k := by
  unfold resolvedText
  rw [h]

/-- Resolving an id over a list whose last item carries that id rewrites
exactly that last item's text. -/
theorem resolveItem_concat_getLast (msgId : Nat) (txt : String)
    (l : List TranscriptionItem) (p : TranscriptionItem) (hp : p.id = msgId) :
    (resolveItem msgId txt (l ++ [p])).getLast? = some { p with text := txt } := by
  simp [resolveItem, List.map_append, List.getLast?_concat, hp]

/-- `resolveItem` only rewrites texts: every item's `isUser` flag, and so
the number of source-origin items, is unchanged. -/
theorem countP_isUser_resolveItem (msgId : Nat) (txt : String)
    (l : List TranscriptionItem) :
    (resolveItem msgId txt l).countP (fun i => i.isUser) =
      l.countP (fun i => i.isUser) := by
  unfold resolveItem
  rw [List.countP_map]
  congr 1
  funext i
  by_cases h : i.id = msgId <;> simp [h, Function.comp]

/-- Oracle whose first attempt succeeds with no text in the response. -/
def oracleEmptySuccess : Nat → RemoteOutcome := fun _ => .success none

/-- C4 counterexample: on the audio path, a successful remote call that
carries no text resolves the placeholder to the literal
"Could not translate audio.", not to "Could not translate." as claimed —
the two fallback literals differ between the audio and text paths. -/
theorem empty_response_audio_fallback_counterexample :
    (translateAudio true oracleEmptySuccess 5 initialState).1.transcriptions =
      [{ id := 5, text := "Could not translate audio.", isUser := false, timestamp := 5 }]
    ∧ "Could not translate audio." ≠ "Could not translate." :=
  ⟨rfl, by decide⟩

/-- C4 (amended): when the remote call succeeds but the response carries
no text, the placeholder is resolved to the path's fallback literal:
"Could not translate audio." on the audio path and "Could not translate."
on the text path. -/
theorem empty_response_fallback_strings (oracle : Nat → RemoteOutcome)
    (text : String) (now : Nat) (s : TranslatorState)
    (h : (translateAttemptLoop oracle).outcome = .ok none)
    (ht : jsTrim text ≠ "") :
    (translateAudio true oracle now s).1.transcriptions.getLast? =
      some { id := now, text := "Could not translate audio.", isUser := false,
             timestamp := now }
    ∧ (translateText true oracle text now s).1.transcriptions.getLast? =
      some { id := now + 1, text := "Could not translate.", isUser := false,
             timestamp := now } := by
  constructor
  · have hr := resolvedText_of_ok_none oracle "Could not translate audio." h
    simp only [translateAudio, Bool.true_eq_false, if_false, hr]
    exact resolveItem_concat_getLast now "Could not translate audio." s.transcriptions
      { id := now, text := "Translating...", isUser := false, timestamp := now } rfl
  · have hr := resolvedText_of_ok_none oracle "Could not translate." h
    simp only [translateText, translateTextIssue, translateTextResolve,
      Bool.true_eq_false, false_or, ht, if_false, hr]
    exact resolveItem_concat_getLast (now + 1) "Could not translate."
      (s.transcriptions ++ [{ id := now, text := text, isUser := true, timestamp := now }])
      { id := now + 1, text := "Translating...", isUser := false, timestamp := now } rfl

/-- C4 witness: the amended claim at a concrete empty-response run. -/
theorem empty_response_fallback_strings_witness :
    (translateAudio true oracleEmptySuccess 0 initialState).1.transcriptions.getLast? =
      some { id := 0, text := "Could not translate audio.", isUser := false,
             timestamp := 0 }
    ∧ (translateText true oracleEmptySuccess "A" 0 initialState).1.transcriptions.getLast? =
      some { id := 0 + 1, text := "Could not translate.", isUser := false,
             timestamp := 0 } :=
  empty_response_fallback_strings oracleEmptySuccess "A" 0 initialState rfl (by decide)

/-- C8: a translate call that ultimately fails resolves its placeholder to
a string determined only by the failure kind — the busy/try-again literal
for rate-limit failures, the generic literal otherwise — on both the audio
and the text paths. The settlement is a total state update (the failure is
caught, never rethrown), so a translation failure cannot crash the hook. -/
theorem translate_failure_error_messages (oracle : Nat → RemoteOutcome)
    (k : FailKind) (text : String) (now : Nat) (s : TranslatorState)
    (h : (translateAttemptLoop oracle).outcome = .error k)
    (ht : jsTrim text ≠ "") :
    errorMessageFor .rateLimited =
      "Service busy (Quota Exceeded). Please try again in a moment."
    ∧ errorMessageFor .other = "Error during translation."
    ∧ (translateAudio true oracle now s).1.transcriptions.getLast? =
        some { id := now, text := errorMessageFor k, isUser := false, timestamp := now }
    ∧ (translateText true oracle text now s).1.transcriptions.getLast? =
        some { id := now + 1, text := errorMessageFor k, isUser := false,
               timestamp := now } := by
  refine ⟨rfl, rfl, ?_, ?_⟩
  · have hr := resolvedText_of_error oracle "Could not translate audio." k h
    simp only [translateAudio, Bool.true_eq_false, if_false, hr]
    exact resolveItem_concat_getLast now (errorMessageFor k) s.transcriptions
      { id := now, text := "Translating...", isUser := false, timestamp := now } rfl
  · have hr := resolvedText_of_error oracle "Could not translate." k h
    simp only [translateText, translateTextIssue, translateTextResolve,
      Bool.true_eq_false, false_or, ht, if_false, hr]
    exact resolveItem_concat_getLast (now + 1) (errorMessageFor k)
      (s.transcriptions ++ [{ id := now, text := text, isUser := true, timestamp := now }])
      { id := now + 1, text := "Translating...", isUser := false, timestamp := now } rfl

/-- C8 witness: a non-rate-limit failure on both paths at concrete inputs. -/
theorem translate_failure_error_messages_witness :
    errorMessageFor .rateLimited =
      "Service busy (Quota Exceeded). Please try again in a moment."
    ∧ errorMessageFor .other = "Error during translation."
    ∧ (translateAudio true oracleHardFailure 0 initialState).1.transcriptions.getLast? =
        some { id := 0, text := errorMessageFor .other, isUser := false, timestamp := 0 }
    ∧ (translateText true oracleHardFailure "A" 0 initialState).1.transcriptions.getLast? =
        some { id := 0 + 1, text := errorMessageFor .other, isUser := false,
               timestamp := 0 } :=
  translate_failure_error_messages oracleHardFailure .other "A" 0 initialState rfl (by decide)

/-- C10: a completed audio recording cycle appends at most one transcript
item; the count of source-origin (`isUser = true`) items never changes —
spoken input gets no source-side entry — and in the nominal cycle (key
present, blob ok) the single appended item is the bot placeholder,
resolved with the audio fallback, with `isUser = false`. -/
theorem audio_cycle_appends_only_translation_item (apiKey : Bool)
    (oracle : Nat → RemoteOutcome) (blobOk : Bool) (now : Nat) (s : TranslatorState) :
    (handleRecordingStop apiKey oracle blobOk now s).transcriptions.length ≤
        s.transcriptions.length + 1
    ∧ (handleRecordingStop apiKey oracle blobOk now s).transcriptions.countP
        (fun i => i.isUser) = s.transcriptions.countP (fun i => i.isUser)
    ∧ (handleRecordingStop true oracle true now s).transcriptions.getLast? =
        some { id := now, text := resolvedText oracle "Could not translate audio.",
               isUser := false, timestamp := now } := by
  refine ⟨?_, ?_, ?_⟩
  · by_cases hb : blobOk <;> by_cases hk : apiKey <;>
      simp [handleRecordingStop, cleanupAudio, translateAudio, resolveItem, hb, hk]
  · by_cases hb : blobOk <;> by_cases hk : apiKey <;>
      simp [handleRecordingStop, cleanupAudio, translateAudio, hb, hk,
        countP_isUser_resolveItem, List.countP_append]
  · simp only [handleRecordingStop, cleanupAudio, translateAudio,
      Bool.true_eq_false, if_false, if_true]
    exact resolveItem_concat_getLast now
      (resolvedText oracle "Could not translate audio.") s.transcriptions
      { id := now, text := "Translating...", isUser := false, timestamp := now } rfl

/-- C1 (code bug): when capture setup fails during `begin()` after the
microphone stream has been acquired — for instance the `MediaRecorder`
constructor throwing on an unsupported mime type — the `catch` in
`startRecording` (App.tsx 355-358) only latches `ERROR` and never runs
`cleanupAudio`, so the cycle ends with the stream still held (one live
track) and the audio context still open, violating the guaranteed-release
property. -/
theorem startRecording_setup_failure_leaks_stream :
    (startRecording true (some ⟨1⟩) true false initialState).recorderState =
      RecorderState.ERROR
    ∧ (startRecording true (some ⟨1⟩) true false initialState).streamRef = some ⟨1⟩
    ∧ activeTracks (startRecording true (some ⟨1⟩) true false initialState) ≠ 0
    ∧ (startRecording true (some ⟨1⟩) true false initialState).audioContextOpen = true :=
  ⟨rfl, rfl, by decide, rfl⟩

/-- Oracle whose first attempt succeeds with the text "alpha". -/
def oracleAlpha : Nat → RemoteOutcome := fun _ => .success (some "alpha")

/-- Oracle whose first attempt succeeds with the text "beta". -/
def oracleBeta : Nat → RemoteOutcome := fun _ => .success (some "beta")

/-- C7 counterexample: two text submissions issued within the same
millisecond get the same `Date.now()`-derived ids, so the id-matched
resolution cross-writes: here B's placeholder (and B's user item id)
collide with A's, and after B settles first and A settles second, B's
placeholder holds A's translation "alpha" instead of its own "beta" — and
the transcript carries duplicate ids. -/
theorem concurrent_text_same_timestamp_cross_write :
    (twoTextSubmissions true 0 0 "A" "B" oracleAlpha oracleBeta initialState).transcriptions =
      [{ id := 0, text := "A", isUser := true, timestamp := 0 },
       { id := 1, text := "alpha", isUser := false, timestamp := 0 },
       { id := 0, text := "B", isUser := true, timestamp := 0 },
       { id := 1, text := "alpha", isUser := false, timestamp := 0 }]
    ∧ "alpha" ≠ "beta" :=
  ⟨rfl, by decide⟩

/-- C7 (amended): provided the two submissions are issued at timestamps at
least 2ms apart (so the four `Date.now()`-derived ids are pairwise
distinct), each submission resolves only its own placeholder — whichever
order the two responses settle in — and neither writes into the other's
items. -/
theorem concurrent_text_distinct_timestamps_resolve_independently
    (bFirst : Bool) (tA tB : Nat) (textA textB : String)
    (oA oB : Nat → RemoteOutcome) (hgap : tA + 2 ≤ tB)
    (hA : jsTrim textA ≠ "") (hB : jsTrim textB ≠ "") :
    (twoTextSubmissions bFirst tA tB textA textB oA oB initialState).transcriptions =
      [{ id := tA, text := textA, isUser := true, timestamp := tA },
       { id := tA + 1, text := resolvedText oA "Could not translate.",
         isUser := false, timestamp := tA },
       { id := tB, text := textB, isUser := true, timestamp := tB },
       { id := tB + 1, text := resolvedText oB "Could not translate.",
         isUser := false, timestamp := tB }]
    ∧ tA ≠ tA + 1 ∧ tA ≠ tB ∧ tA ≠ tB + 1
    ∧ tA + 1 ≠ tB ∧ tA + 1 ≠ tB + 1 ∧ tB ≠ tB + 1 := by
  have h1 : tA ≠ tB + 1 := by omega
  have h2 : tA + 1 ≠ tB + 1 := by omega
  have h3 : tB ≠ tB + 1 := by omega
  have h4 : tA ≠ tA + 1 := by omega
  have h5 : tB ≠ tA + 1 := by omega
  have h6 : tB + 1 ≠ tA + 1 := by omega
  have h7 : tA ≠ tB := by omega
  have h8 : tB ≠ tA := by omega
  refine ⟨?_, by omega, by omega, by omega, by omega, by omega, by omega⟩
  cases bFirst <;>
    simp [twoTextSubmissions, translateTextIssue, translateTextResolve, resolveItem,
      initialState, hA, hB, h1, h2, h3, h4, h5, h6, h7, h8]

/-- C7 witness: submissions at timestamps 0 and 2, B settling first. -/
theorem concurrent_text_distinct_timestamps_resolve_independently_witness :
    (twoTextSubmissions true 0 2 "A" "B" oracleAlpha oracleBeta initialState).transcriptions =
      [{ id := 0, text := "A", isUser := true, timestamp := 0 },
       { id := 0 + 1, text := resolvedText oracleAlpha "Could not translate.",
         isUser := false, timestamp := 0 },
       { id := 2, text := "B", isUser := true, timestamp := 2 },
       { id := 2 + 1, text := resolvedText oracleBeta "Could not translate.",
         isUser := false, timestamp := 2 }]
    ∧ (0 : Nat) ≠ 0 + 1 ∧ (0 : Nat) ≠ 2 ∧ (0 : Nat) ≠ 2 + 1
    ∧ (0 : Nat) + 1 ≠ 2 ∧ (0 : Nat) + 1 ≠ 2 + 1 ∧ (2 : Nat) ≠ 2 + 1 :=
  concurrent_text_distinct_timestamps_resolve_independently true 0 2 "A" "B"
    oracleAlpha oracleBeta (by omega) (by decide) (by decide)
